import Mathlib

/-!
Verification of the `xiaomi_miot_raw` Home Assistant custom component
(files `light.py` and `sensor.py`).

The Python code is shallowly embedded: numbers are modelled by `ℚ`/`ℤ`
(Python `round` is round-half-to-even, `int()` truncates toward zero),
Python dicts by association lists with insert-or-overwrite update, raised
exceptions by `Except`/`Option` results.
-/

namespace XiaomiMiotRaw

/-- Python built-in `round(x)` with one argument: round half to even,
returning an integer. -/
def pyRound (q : ℚ) : ℤ :=
  if q - ⌊q⌋ < 1/2 then ⌊q⌋
  else if 1/2 < q - ⌊q⌋ then ⌊q⌋ + 1
  else if ⌊q⌋ % 2 = 0 then ⌊q⌋ else ⌊q⌋ + 1

/-- Python built-in `int(x)`: truncation toward zero. -/
def pyInt (q : ℚ) : ℤ := if 0 ≤ q then ⌊q⌋ else ⌈q⌉

/-- Python `round(x, 3)`: round half to even at the third decimal place. -/
def pyRound3 (q : ℚ) : ℚ := (pyRound (q * 1000) : ℚ) / 1000

/-- Python `d[k] = v` on a dict modelled as an association list:
overwrite the existing binding in place, or append a new one. -/
def dictInsert {α : Type} (d : List (String × α)) (k : String) (v : α) :
    List (String × α) :=
  match d with
  | [] => [(k, v)]
  | q :: rest => if q.1 = k then (k, v) :: rest else q :: dictInsert rest k v

/-- Python `d.update(u)`: insert every entry of `u`, in order, into `d`. -/
def dictUpdate {α : Type} (d u : List (String × α)) : List (String × α) :=
  u.foldl (fun acc q => dictInsert acc q.1 q.2) d

/-- `async_setup_platform` (light.py lines 53-82, sensor.py lines 52-84):
device-handle construction, `info()` and entity construction all happen
inside one `try`; a `DeviceException` anywhere in it (modelled as the
`.error` case of the incoming result) raises `PlatformNotReady` and no
entity is added; otherwise the single entity built from the device info is
added. -/
inductive SetupOutcome (α : Type) where
  | added (entities : List α)
  | notReady
  deriving Repr, DecidableEq

def async_setup_platform {α β : Type} (deviceInfo : Except Unit β) (mk : β → α) :
    SetupOutcome α :=
  match deviceInfo with
  | .error _ => .notReady
  | .ok info => .added [mk info]

namespace MiotLight

/-- A control-parameter `value_range` triple `[lo, hi, step]`. -/
structure ValueRange where
  lo : ℤ
  hi : ℤ
  step : ℤ
  deriving Repr, DecidableEq

/-- `MiotLight.convert_value(value, param, dir)` (light.py lines 112-118):

    valuerange = self._ctrl_params[param]['value_range']
    if dir:
        slider_value = round(value/255*100)
        return int(slider_value/100*(valuerange[1]-valuerange[0]+1)/valuerange[2])*valuerange[2]
    else:
        return round(value/(valuerange[1]-valuerange[0]+1)*255)
-/
def convert_value (vr : ValueRange) (value : ℚ) (dir : Bool) : ℤ :=
  if dir then
    let slider_value := pyRound (value / 255 * 100)
    pyInt ((slider_value : ℚ) / 100 * ((vr.hi : ℚ) - (vr.lo : ℚ) + 1) / (vr.step : ℚ)) * vr.step
  else
    pyRound (value / ((vr.hi : ℚ) - (vr.lo : ℚ) + 1) * 255)

/-- `homeassistant.util.color.color_temperature_mired_to_kelvin` (third-party
dependency used at light.py line 134): `math.floor(1000000 / mired)`. -/
def color_temperature_mired_to_kelvin (mired : ℚ) : ℤ := ⌊(1000000 : ℚ) / mired⌋

/-- `homeassistant.util.color.color_temperature_kelvin_to_mired` (third-party
dependency used at light.py line 220): `math.floor(1000000 / kelvin)`. -/
def color_temperature_kelvin_to_mired (kelvin : ℚ) : ℤ := ⌊(1000000 : ℚ) / kelvin⌋

/-- The color-temperature value sent by `MiotLight.async_turn_on`
(light.py lines 130-136): the requested mired value is converted to Kelvin
and clamped into the `value_range` of the `color_temperature` control
parameter:

    valuerange = self._ctrl_params['color_temperature']['value_range']
    ct = color.color_temperature_mired_to_kelvin(kwargs[ATTR_COLOR_TEMP])
    ct = valuerange[0] if ct < valuerange[0] else valuerange[1] if ct > valuerange[1] else ct
-/
def turn_on_color_temp (vr : ValueRange) (mired : ℚ) : ℤ :=
  let ct := color_temperature_mired_to_kelvin mired
  if ct < vr.lo then vr.lo else if vr.hi < ct then vr.hi else ct

/-- The label-to-code lookup performed by `MiotLight.async_turn_on`
(light.py line 125) on the `mode` control-parameter table (a dict from
device mode code to effect label):

    list(modes.keys())[list(modes.values()).index(kwargs[ATTR_EFFECT])]

`.index` returns the position of the first occurrence and raises
`ValueError` when the label is absent (modelled by `none`). -/
def effect_label_to_code (modes : List (ℤ × String)) (label : String) : Option ℤ :=
  match (modes.map Prod.snd).findIdx? (fun v => v == label) with
  | some i => (modes.map Prod.fst).get? i
  | none => none

/-- The code-to-label lookup performed by `MiotLight.async_update`
(light.py line 229): `self._ctrl_params['mode'][statedict['mode']]`,
with `KeyError` (absent code) modelled by `none`. -/
def effect_code_to_label (modes : List (ℤ × String)) (code : ℤ) : Option String :=
  modes.lookup code

/-- The control parameters and configuration the light update path reads:
`switch_status.power_on` / `switch_status.power_off` sentinel values, the
`brightness` `value_range`, the `mode` table, and the `update_instant`
flag. -/
structure LightConfig where
  power_on : ℤ
  power_off : ℤ
  brightness_range : ValueRange
  mode_table : List (ℤ × String)
  update_instant : Bool

/-- One entry of the `get_properties_for_mapping` response as used by
light.py: a dict with a `did` key and, for successfully fetched
properties, a `value` key. -/
structure LightProp where
  did : String
  value : Option ℤ
  deriving Repr, DecidableEq

/-- The cached attributes of a `MiotLight` entity: `_available`, `_state`
(`True`/`False`/`None`), `_brightness`, `_color_temp`, `_effect`,
`_state_attrs` and `_skip_update`. -/
structure LightState where
  available : Bool
  state : Option Bool
  brightness : Option ℤ
  color_temp : Option ℤ
  effect : Option String
  state_attrs : List (String × ℤ)
  skip_update : Bool

/-- The `statedict` loop of `MiotLight.async_update` (light.py lines
190-195): each response entry stores its `value` under its `did`; an entry
without a `value` key raises inside the inner `try` and is skipped. -/
def lightStatedict : List LightProp → List (String × ℤ) → List (String × ℤ)
  | [], d => d
  | r :: rest, d =>
      lightStatedict rest
        (match r.value with
         | some v => dictInsert d r.did v
         | none => d)

/-- `MiotLight.async_update` (light.py lines 178-235) as a state
transition. The fetch result is `.ok entries` or `.error ()` for a raised
`DeviceException`. The returned value is `.error ()` when the update
itself raises: `state = statedict['switch_status']` (line 196) is not
guarded by any `try`, so a response without a `switch_status` entry
raises `KeyError` out of the coroutine (`except DeviceException` does not
catch it). Every other missing key is tolerated by a `try/except
KeyError` block. -/
def async_update (cfg : LightConfig) (s : LightState)
    (response : Except Unit (List LightProp)) : Except Unit LightState :=
  if cfg.update_instant = false ∧ s.skip_update = true then
    .ok { s with skip_update := false }
  else
    match response with
    | .error _ => .ok { s with available := false }
    | .ok resp =>
      let sd := lightStatedict resp []
      match sd.lookup "switch_status" with
      | none => .error ()
      | some st =>
        let s1 : LightState :=
          { s with
            available := true,
            state :=
              if st = cfg.power_on then some true
              else if st = cfg.power_off then some false
              else none,
            state_attrs := dictInsert s.state_attrs "state_value" st }
        let s2 : LightState :=
          { s1 with brightness :=
            match sd.lookup "brightness" with
            | some v => some (convert_value cfg.brightness_range (v : ℚ) false)
            | none => s1.brightness }
        let s3 : LightState :=
          { s2 with color_temp :=
            match sd.lookup "color_temperature" with
            | some v => some (color_temperature_kelvin_to_mired (v : ℚ))
            | none => s2.color_temp }
        let s4 : LightState :=
          { s3 with state_attrs :=
            match sd.lookup "color_temperature" with
            | some v => dictInsert s3.state_attrs "color_temperature" v
            | none => s3.state_attrs }
        let s5 : LightState :=
          { s4 with state_attrs :=
            match sd.lookup "mode" with
            | some v => dictInsert s4.state_attrs "effect" v
            | none => s4.state_attrs }
        let s6 : LightState :=
          { s5 with effect :=
            match sd.lookup "mode" with
            | some v => effect_code_to_label cfg.mode_table v
            | none => none }
        .ok s6

end MiotLight

namespace MiotSensor

/-- One entry of the `get_properties_for_mapping` response as used by
sensor.py: a dict with `did`, `code` and `value` keys. -/
structure PropResult where
  did : String
  code : ℤ
  value : ℚ
  deriving Repr, DecidableEq

/-- Python dict holding the sensor attributes: each key maps to a value or
to Python `None` (for properties whose fetch failed). -/
abbrev AttrDict := List (String × Option ℚ)

/-- The configuration and control parameters the sensor update path reads:
the per-identifier `value_ratio` (`self._ctrl_params[r['did']]['value_ratio']`,
whose `KeyError` when absent is modelled by `none`), the optional
`sensor_property` selector, the mapping keys, and `update_instant`. -/
structure SensorConfig where
  ratioOf : String → Option ℚ
  sensor_property : Option String
  mapping_keys : List String
  update_instant : Bool

/-- The value stored for one successfully fetched property (sensor.py
lines 114-119): scaled by `value_ratio` and rounded to 3 decimals when the
ratio is present, the raw value otherwise:

    try:
        f = self._ctrl_params[r['did']]['value_ratio']
        statedict[r['did']] = round(r['value'] * f , 3)
    except KeyError:
        statedict[r['did']] = r['value']
-/
def scaledValue (cfg : SensorConfig) (r : PropResult) : ℚ :=
  match cfg.ratioOf r.did with
  | some f => pyRound3 (r.value * f)
  | none => r.value

/-- The `statedict` value of one response entry (sensor.py lines 113-122):
successful entries store their (possibly scaled) value, failed entries
store Python `None`. -/
def entryValue (cfg : SensorConfig) (r : PropResult) : Option ℚ :=
  if r.code = 0 then some (scaledValue cfg r) else none

/-- The `statedict` built by the response loop of `MiotSensor.async_update`
(sensor.py lines 111-122). -/
def buildStatedict (cfg : SensorConfig) : List PropResult → AttrDict → AttrDict
  | [], d => d
  | r :: rest, d => buildStatedict cfg rest (dictInsert d r.did (entryValue cfg r))

/-- The `count4004` counter of the same loop (sensor.py lines 112-124):
incremented for each entry whose `code` is nonzero and equal to `-4004`. -/
def count4004 : List PropResult → ℕ
  | [] => 0
  | r :: rest => (if r.code ≠ 0 ∧ r.code = -4004 then 1 else 0) + count4004 rest

/-- The cached attributes of a `MiotSensor` entity: `_available`,
`_assumed_state`, `_state_attrs`, `_state` and `_skip_update`. -/
structure SensorState where
  available : Bool
  assumed_state : Bool
  state_attrs : AttrDict
  state : Option ℚ
  skip_update : Bool

/-- Python `d.get(k)` on the attrs dict: `None` when the key is missing,
otherwise the stored value (itself possibly `None`). -/
def attrsGet (d : AttrDict) (k : String) : Option ℚ :=
  match d.lookup k with
  | some v => v
  | none => none

/-- The state-selection epilogue of `MiotSensor.async_update` (sensor.py
lines 137-144), which runs on both the success and the `DeviceException`
path:

    state = self._state_attrs
    if self._sensor_property is not None:
        self._state = state.get(self._sensor_property)
    else:
        try:
            self._state = state.get(self._mapping.keys()[0])
        except:
            self._state = None

In Python 3 `self._mapping.keys()` is a `dict_keys` view, which is not
subscriptable, so `self._mapping.keys()[0]` raises `TypeError` whatever
the mapping contains; the bare `except:` catches it and the fallback
branch always stores `None`. -/
def selectState (cfg : SensorConfig) (s : SensorState) : SensorState :=
  match cfg.sensor_property with
  | some p => { s with state := attrsGet s.state_attrs p }
  | none => { s with state := none }

/-- `MiotSensor.async_update` (sensor.py lines 98-144) as a state
transition. The fetch result is `.ok entries` or `.error ()` for a raised
`DeviceException` (caught at lines 133-135, clearing `_available`). -/
def async_update (cfg : SensorConfig) (s : SensorState)
    (response : Except Unit (List PropResult)) : SensorState :=
  if cfg.update_instant = false ∧ s.skip_update = true then
    { s with skip_update := false }
  else
    match response with
    | .error _ => selectState cfg { s with available := false }
    | .ok resp =>
      selectState cfg
        { s with
          available := true,
          assumed_state :=
            if count4004 resp = resp.length then true else s.assumed_state,
          state_attrs := dictUpdate s.state_attrs (buildStatedict cfg resp []) }

end MiotSensor

/-! ## Helper lemmas about the Python numeric primitives -/

theorem pyRound_sub_abs_le (q : ℚ) : |(pyRound q : ℚ) - q| ≤ 1/2 := by
  have h0 : (⌊q⌋ : ℚ) ≤ q := Int.floor_le q
  have h1 : q < ⌊q⌋ + 1 := Int.lt_floor_add_one q
  unfold pyRound
  split_ifs with ha hb hc <;> rw [abs_le] <;> constructor <;> push_cast <;>
    push_neg at * <;> linarith

theorem pyRound_nonneg {q : ℚ} (hq : 0 ≤ q) : 0 ≤ pyRound q := by
  by_contra h
  push_neg at h
  have h2 : pyRound q + 1 ≤ 0 := h
  have h3 : (pyRound q : ℚ) ≤ -1 := by
    have : ((pyRound q + 1 : ℤ) : ℚ) ≤ 0 := by exact_mod_cast h2
    push_cast at this
    linarith
  have h4 := abs_le.mp (pyRound_sub_abs_le q)
  linarith [h4.1]

theorem pyInt_of_nonneg {q : ℚ} (hq : 0 ≤ q) : pyInt q = ⌊q⌋ := by
  unfold pyInt
  rw [if_pos hq]

/-! ## C1: brightness round trip -/

namespace MiotLight

/-- C1 (counterexample): the claim fails as stated. For the value range
`[1, 1000, 1]` one device step corresponds to `255/1000` on the UI scale,
but converting the UI brightness `1` to the device range and back yields
`0`, at distance `1 > 255/1000` from the original. -/
theorem brightness_roundtrip_counterexample :
    ¬ |((convert_value ⟨1, 1000, 1⟩
          ((convert_value ⟨1, 1000, 1⟩ ((1 : ℤ) : ℚ) true : ℤ) : ℚ) false : ℤ) : ℚ) -
        ((1 : ℤ) : ℚ)| ≤
      255 * ((1 : ℤ) : ℚ) / (((1000 : ℤ) : ℚ) - ((1 : ℤ) : ℚ) + 1) := by
  norm_num [convert_value, pyRound, pyInt]

/-- C1 (amended): for every UI brightness `b` in `0..255` and every value
range with `step > 0` and `lo ≤ hi`, the round trip through
`MiotLight.convert_value` returns within the UI-scale equivalent of one
device step `255*step/(hi-lo+1)` **plus two UI units** of the original
(the extra two units absorb the intermediate rounding to a 0-100 slider
scale and the final rounding to an integer). -/
theorem brightness_roundtrip (vr : ValueRange) (b : ℤ) (hb0 : 0 ≤ b) (hb : b ≤ 255)
    (hstep : 0 < vr.step) (hrange : vr.lo ≤ vr.hi) :
    |((convert_value vr ((convert_value vr (b : ℚ) true : ℤ) : ℚ) false : ℤ) : ℚ) - (b : ℚ)| ≤
      255 * (vr.step : ℚ) / ((vr.hi : ℚ) - (vr.lo : ℚ) + 1) + 2 := by
  have hs1 : (1:ℚ) ≤ (vr.step:ℚ) := by exact_mod_cast hstep
  have hN1 : (1:ℚ) ≤ (vr.hi:ℚ) - (vr.lo:ℚ) + 1 := by
    have : (vr.lo:ℚ) ≤ (vr.hi:ℚ) := by exact_mod_cast hrange
    linarith
  simp only [convert_value, if_true]
  push_cast
  set N : ℚ := (vr.hi:ℚ) - (vr.lo:ℚ) + 1 with hNdef
  set s : ℚ := (vr.step:ℚ) with hsdef
  have hNpos : (0:ℚ) < N := by linarith
  have hspos : (0:ℚ) < s := by linarith
  have hN0 : N ≠ 0 := ne_of_gt hNpos
  have hs0 : s ≠ 0 := ne_of_gt hspos
  set u : ℚ := (b:ℚ) / 255 * 100 with hudef
  set p : ℤ := pyRound u with hpdef
  have hpu := abs_le.mp (pyRound_sub_abs_le u)
  have hu0 : 0 ≤ u := by
    have hb0Q : (0:ℚ) ≤ (b:ℚ) := by exact_mod_cast hb0
    positivity
  have hp0 : (0:ℚ) ≤ (p:ℚ) := by exact_mod_cast pyRound_nonneg hu0
  set x : ℚ := (p:ℚ) / 100 * N / s with hxdef
  have hx0 : 0 ≤ x := by positivity
  rw [pyInt_of_nonneg hx0]
  have hxs : x * s = (p:ℚ) * N / 100 := by
    rw [hxdef]; field_simp; ring
  have hd_le : (⌊x⌋:ℚ) * s ≤ (p:ℚ) * N / 100 := by
    have h := mul_le_mul_of_nonneg_right (Int.floor_le x) (le_of_lt hspos)
    rw [hxs] at h
    exact h
  have hd_gt : (p:ℚ) * N / 100 - s < (⌊x⌋:ℚ) * s := by
    have h1 : x - 1 < (⌊x⌋:ℚ) := Int.sub_one_lt_floor x
    have h2 := mul_lt_mul_of_pos_right h1 hspos
    have h3 : (x - 1) * s = x * s - s := by ring
    rw [h3, hxs] at h2
    exact h2
  set d : ℚ := (⌊x⌋:ℚ) * s with hddef
  have hB_le : d / N * 255 ≤ (p:ℚ) * 255 / 100 := by
    have h1 : d / N ≤ ((p:ℚ) * N / 100) / N := (div_le_div_iff_of_pos_right hNpos).mpr hd_le
    have h2 : ((p:ℚ) * N / 100) / N = (p:ℚ) / 100 := by field_simp; ring
    calc d / N * 255 ≤ (((p:ℚ) * N / 100) / N) * 255 :=
          mul_le_mul_of_nonneg_right h1 (by norm_num)
      _ = (p:ℚ) * 255 / 100 := by rw [h2]; ring
  have hB_gt : (p:ℚ) * 255 / 100 - 255 * s / N < d / N * 255 := by
    have h1 : ((p:ℚ) * N / 100 - s) / N < d / N := (div_lt_div_iff_of_pos_right hNpos).mpr hd_gt
    have h2 := mul_lt_mul_of_pos_right h1 (by norm_num : (0:ℚ) < 255)
    have h3 : ((p:ℚ) * N / 100 - s) / N * 255 = (p:ℚ) * 255 / 100 - 255 * s / N := by
      field_simp; ring
    rw [h3] at h2
    exact h2
  have hback := abs_le.mp (pyRound_sub_abs_le (d / N * 255))
  have hCb : (p:ℚ) * 255 / 100 - (b:ℚ) = ((p:ℚ) - u) * 255 / 100 := by
    rw [hudef]; ring
  have hsN0 : (0:ℚ) ≤ 255 * s / N := by positivity
  rw [abs_le]
  constructor
  · linarith [hback.1, hpu.1]
  · linarith [hback.2, hpu.2]

/-- C1 (witness): the amended bound applied at the concrete value range
`[1, 100, 1]` and UI brightness `77`. -/
theorem brightness_roundtrip_witness :
    |((convert_value ⟨1, 100, 1⟩
        ((convert_value ⟨1, 100, 1⟩ ((77 : ℤ) : ℚ) true : ℤ) : ℚ) false : ℤ) : ℚ) -
      ((77 : ℤ) : ℚ)| ≤
      255 * ((1 : ℤ) : ℚ) / (((100 : ℤ) : ℚ) - ((1 : ℤ) : ℚ) + 1) + 2 := by
  exact brightness_roundtrip ⟨1, 100, 1⟩ 77 (by norm_num) (by norm_num)
    (by norm_num) (by norm_num)

/-! ## C5: color-temperature clamping -/

/-- C5: in `MiotLight.async_turn_on`, the requested mired value converted
to Kelvin is clamped into `[value_range[0], value_range[1]]`: the value
sent is `lo` below the range, `hi` above it, and the converted Kelvin
value itself inside it. -/
theorem turn_on_color_temp_clamps (vr : ValueRange) (mired : ℚ)
    (hrange : vr.lo ≤ vr.hi) :
    (color_temperature_mired_to_kelvin mired < vr.lo →
      turn_on_color_temp vr mired = vr.lo) ∧
    (vr.hi < color_temperature_mired_to_kelvin mired →
      turn_on_color_temp vr mired = vr.hi) ∧
    (vr.lo ≤ color_temperature_mired_to_kelvin mired →
      color_temperature_mired_to_kelvin mired ≤ vr.hi →
      turn_on_color_temp vr mired = color_temperature_mired_to_kelvin mired) := by
  simp only [turn_on_color_temp]
  refine ⟨fun h => ?_, fun h => ?_, fun h1 h2 => ?_⟩ <;> split_ifs <;> omega

/-- C5 (witness): with the Kelvin range `[2700, 6500]` and a request of
250 mired (= 4000 K, inside the range) the converted value passes through
unclamped. -/
theorem turn_on_color_temp_witness :
    turn_on_color_temp ⟨2700, 6500, 1⟩ 250 = color_temperature_mired_to_kelvin 250 := by
  have h := (turn_on_color_temp_clamps ⟨2700, 6500, 1⟩ 250 (by norm_num)).2.2
  exact h (by norm_num [color_temperature_mired_to_kelvin])
    (by norm_num [color_temperature_mired_to_kelvin])

/-! ## C4: effect mode table lookups -/

theorem effect_label_to_code_cons (q : ℤ × String) (rest : List (ℤ × String)) (lbl : String) :
    effect_label_to_code (q :: rest) lbl =
      if q.2 = lbl then some q.1 else effect_label_to_code rest lbl := by
  simp only [effect_label_to_code, List.map_cons, List.findIdx?_cons, List.findIdx?_succ]
  by_cases h : q.2 = lbl
  · simp [h]
  · have hb : (q.2 == lbl) = false := by simp [h]
    rw [hb, if_neg h]
    cases hfi : (rest.map Prod.snd).findIdx? (fun v => v == lbl) with
    | none => rfl
    | some i => rfl

theorem effect_label_to_code_mem (modes : List (ℤ × String)) (p : ℤ × String)
    (hlabels : (modes.map Prod.snd).Nodup) (hp : p ∈ modes) :
    effect_label_to_code modes p.2 = some p.1 := by
  induction modes with
  | nil => cases hp
  | cons q rest ih =>
    simp only [List.map_cons, List.nodup_cons] at hlabels
    rw [effect_label_to_code_cons]
    rcases List.mem_cons.mp hp with h | h
    · subst h
      rw [if_pos rfl]
    · have hne : q.2 ≠ p.2 := by
        intro he
        exact hlabels.1 (he ▸ List.mem_map_of_mem Prod.snd h)
      rw [if_neg hne]
      exact ih hlabels.2 h

theorem lookup_mem_of_nodup (modes : List (ℤ × String)) (p : ℤ × String)
    (hkeys : (modes.map Prod.fst).Nodup) (hp : p ∈ modes) :
    List.lookup p.1 modes = some p.2 := by
  induction modes with
  | nil => cases hp
  | cons q rest ih =>
    simp only [List.map_cons, List.nodup_cons] at hkeys
    rcases List.mem_cons.mp hp with h | h
    · subst h
      simp [List.lookup]
    · have hne : (p.1 == q.1) = false := by
        simp only [beq_eq_false_iff_ne, ne_eq]
        intro he
        exact hkeys.1 (he ▸ List.mem_map_of_mem Prod.fst h)
      rw [List.lookup, hne]
      exact ih hkeys.2 h

/-- C4 (counterexample): the claim fails as stated for a mode table with a
repeated label. In the table `{1: "a", 2: "a"}` the entry `(2, "a")` does
not round-trip: the label `"a"` resolves (via `.index`, which picks the
first occurrence) to code `1`, not `2`. -/
theorem effect_table_counterexample :
    ¬ (∀ p ∈ [((1 : ℤ), "a"), ((2 : ℤ), "a")],
        effect_label_to_code [((1 : ℤ), "a"), ((2 : ℤ), "a")] p.2 = some p.1 ∧
        effect_code_to_label [((1 : ℤ), "a"), ((2 : ℤ), "a")] p.1 = some p.2) := by
  intro h
  have h2 := (h (2, "a") (by simp)).1
  simp [effect_label_to_code, List.findIdx?] at h2

/-- C4 (amended): for every mode table whose labels are pairwise distinct
(codes are unique automatically, being dict keys), the label-to-code
lookup of `async_turn_on` and the code-to-label lookup of `async_update`
are mutually inverse on the table's entries. -/
theorem effect_table_inverse (modes : List (ℤ × String))
    (hkeys : (modes.map Prod.fst).Nodup) (hlabels : (modes.map Prod.snd).Nodup) :
    ∀ p ∈ modes,
      effect_label_to_code modes p.2 = some p.1 ∧
      effect_code_to_label modes p.1 = some p.2 := by
  intro p hp
  exact ⟨effect_label_to_code_mem modes p hlabels hp,
         lookup_mem_of_nodup modes p hkeys hp⟩

/-- C4 (witness): the round trip on the concrete table
`{1: "day", 2: "night"}` at the entry `(2, "night")`. -/
theorem effect_table_inverse_witness :
    effect_label_to_code [((1 : ℤ), "day"), ((2 : ℤ), "night")] "night" = some 2 ∧
    effect_code_to_label [((1 : ℤ), "day"), ((2 : ℤ), "night")] 2 = some "night" := by
  exact effect_table_inverse [((1 : ℤ), "day"), ((2 : ℤ), "night")]
    (by simp) (by simp) (2, "night") (by simp)

end MiotLight

/-! ## Helper lemmas about the dict model -/

theorem lookup_dictInsert_self {α : Type} (d : List (String × α)) (k : String) (v : α) :
    (dictInsert d k v).lookup k = some v := by
  induction d with
  | nil => simp [dictInsert, List.lookup]
  | cons q rest ih =>
    by_cases h : q.1 = k
    · simp [dictInsert, h, List.lookup]
    · simp only [dictInsert, if_neg h]
      have hne : (k == q.1) = false := by
        simp only [beq_eq_false_iff_ne, ne_eq]
        exact fun he => h he.symm
      rw [List.lookup, hne]
      exact ih

theorem lookup_dictInsert_ne {α : Type} (d : List (String × α)) (k k' : String) (v : α)
    (hne : k' ≠ k) : (dictInsert d k v).lookup k' = d.lookup k' := by
  induction d with
  | nil =>
    have h : (k' == k) = false := by simp [hne]
    simp [dictInsert, List.lookup, h]
  | cons q rest ih =>
    by_cases h : q.1 = k
    · subst h
      have h1 : (k' == q.1) = false := by simp [hne]
      rw [dictInsert, if_pos rfl, List.lookup, h1, List.lookup, h1]
    · rw [dictInsert, if_neg h]
      by_cases h2 : k' = q.1
      · have hb : (k' == q.1) = true := by simp [h2]
        rw [List.lookup, hb, List.lookup, hb]
      · have hb : (k' == q.1) = false := by simp [h2]
        rw [List.lookup, hb, List.lookup, hb]
        exact ih

theorem mem_keys_dictInsert {α : Type} (d : List (String × α)) (k a : String) (v : α) :
    a ∈ (dictInsert d k v).map Prod.fst ↔ a = k ∨ a ∈ d.map Prod.fst := by
  induction d with
  | nil => simp [dictInsert]
  | cons q rest ih =>
    by_cases h : q.1 = k
    · subst h
      simp [dictInsert]
    · simp only [dictInsert, if_neg h, List.map_cons, List.mem_cons, ih]
      tauto

theorem nodup_keys_dictInsert {α : Type} (d : List (String × α)) (k : String) (v : α)
    (hd : (d.map Prod.fst).Nodup) : ((dictInsert d k v).map Prod.fst).Nodup := by
  induction d with
  | nil => simp [dictInsert]
  | cons q rest ih =>
    simp only [List.map_cons, List.nodup_cons] at hd
    by_cases h : q.1 = k
    · subst h
      simp only [dictInsert, eq_self_iff_true, if_true, List.map_cons, List.nodup_cons]
      exact hd
    · simp only [dictInsert, if_neg h, List.map_cons, List.nodup_cons]
      constructor
      · rw [mem_keys_dictInsert]
        push_neg
        exact ⟨h, hd.1⟩
      · exact ih hd.2

theorem dictUpdate_cons {α : Type} (d : List (String × α)) (q : String × α)
    (u : List (String × α)) :
    dictUpdate d (q :: u) = dictUpdate (dictInsert d q.1 q.2) u := rfl

theorem lookup_dictUpdate_not_mem {α : Type} (d u : List (String × α)) (k : String)
    (h : k ∉ u.map Prod.fst) : (dictUpdate d u).lookup k = d.lookup k := by
  induction u generalizing d with
  | nil => rfl
  | cons q rest ih =>
    simp only [List.map_cons, List.mem_cons, not_or] at h
    rw [dictUpdate_cons, ih _ h.2, lookup_dictInsert_ne _ _ _ _ h.1]

theorem lookup_dictUpdate_mem_nodup {α : Type} (d u : List (String × α)) (k : String)
    (hnd : (u.map Prod.fst).Nodup) (h : k ∈ u.map Prod.fst) :
    (dictUpdate d u).lookup k = u.lookup k := by
  induction u generalizing d with
  | nil => cases h
  | cons q rest ih =>
    simp only [List.map_cons, List.nodup_cons] at hnd
    rw [dictUpdate_cons]
    by_cases hk : k ∈ rest.map Prod.fst
    · have hne : k ≠ q.1 := fun he => hnd.1 (he ▸ hk)
      have hb : (k == q.1) = false := by simp [hne]
      rw [ih _ hnd.2 hk, List.lookup, hb]
    · have hkq : k = q.1 := by
        simp only [List.map_cons, List.mem_cons] at h
        tauto
      subst hkq
      rw [lookup_dictUpdate_not_mem _ _ _ hk, lookup_dictInsert_self, List.lookup]
      simp

/-! ## Helper lemmas about the sensor update -/

namespace MiotSensor

theorem lookup_buildStatedict_not_mem (cfg : SensorConfig) (resp : List PropResult)
    (d : AttrDict) (k : String) (h : k ∉ resp.map PropResult.did) :
    (buildStatedict cfg resp d).lookup k = d.lookup k := by
  induction resp generalizing d with
  | nil => rfl
  | cons r rest ih =>
    simp only [List.map_cons, List.mem_cons, not_or] at h
    rw [buildStatedict, ih _ h.2, lookup_dictInsert_ne _ _ _ _ h.1]

theorem lookup_buildStatedict_mem (cfg : SensorConfig) (resp : List PropResult)
    (d : AttrDict) (r : PropResult) (hnd : (resp.map PropResult.did).Nodup)
    (hr : r ∈ resp) :
    (buildStatedict cfg resp d).lookup r.did = some (entryValue cfg r) := by
  induction resp generalizing d with
  | nil => cases hr
  | cons q rest ih =>
    simp only [List.map_cons, List.nodup_cons] at hnd
    rw [buildStatedict]
    rcases List.mem_cons.mp hr with h | h
    · subst h
      rw [lookup_buildStatedict_not_mem _ _ _ _ hnd.1, lookup_dictInsert_self]
    · exact ih _ hnd.2 h

theorem mem_keys_buildStatedict (cfg : SensorConfig) (resp : List PropResult)
    (d : AttrDict) (k : String) :
    k ∈ (buildStatedict cfg resp d).map Prod.fst ↔
      k ∈ resp.map PropResult.did ∨ k ∈ d.map Prod.fst := by
  induction resp generalizing d with
  | nil => simp [buildStatedict]
  | cons r rest ih =>
    rw [buildStatedict, ih]
    simp only [List.map_cons, List.mem_cons, mem_keys_dictInsert]
    tauto

theorem nodup_keys_buildStatedict (cfg : SensorConfig) (resp : List PropResult)
    (d : AttrDict) (hd : (d.map Prod.fst).Nodup) :
    ((buildStatedict cfg resp d).map Prod.fst).Nodup := by
  induction resp generalizing d with
  | nil => exact hd
  | cons r rest ih =>
    rw [buildStatedict]
    exact ih _ (nodup_keys_dictInsert _ _ _ hd)

theorem selectState_assumed (cfg : SensorConfig) (s : SensorState) :
    (selectState cfg s).assumed_state = s.assumed_state := by
  unfold selectState
  cases cfg.sensor_property <;> rfl

theorem selectState_attrs (cfg : SensorConfig) (s : SensorState) :
    (selectState cfg s).state_attrs = s.state_attrs := by
  unfold selectState
  cases cfg.sensor_property <;> rfl

theorem selectState_available (cfg : SensorConfig) (s : SensorState) :
    (selectState cfg s).available = s.available := by
  unfold selectState
  cases cfg.sensor_property <;> rfl

theorem async_update_ok_assumed (cfg : SensorConfig) (s : SensorState)
    (resp : List PropResult)
    (hskip : ¬(cfg.update_instant = false ∧ s.skip_update = true)) :
    (async_update cfg s (.ok resp)).assumed_state =
      if count4004 resp = resp.length then true else s.assumed_state := by
  unfold async_update
  rw [if_neg hskip, selectState_assumed]

theorem async_update_ok_attrs (cfg : SensorConfig) (s : SensorState)
    (resp : List PropResult)
    (hskip : ¬(cfg.update_instant = false ∧ s.skip_update = true)) :
    (async_update cfg s (.ok resp)).state_attrs =
      dictUpdate s.state_attrs (buildStatedict cfg resp []) := by
  unfold async_update
  rw [if_neg hskip, selectState_attrs]

theorem async_update_error_eq (cfg : SensorConfig) (s : SensorState)
    (hskip : ¬(cfg.update_instant = false ∧ s.skip_update = true)) :
    async_update cfg s (.error ()) = selectState cfg { s with available := false } := by
  unfold async_update
  rw [if_neg hskip]

theorem count4004_le (resp : List PropResult) : count4004 resp ≤ resp.length := by
  induction resp with
  | nil => simp [count4004]
  | cons r rest ih =>
    simp only [count4004, List.length_cons]
    split_ifs <;> omega

theorem count4004_eq_length_iff (resp : List PropResult) :
    count4004 resp = resp.length ↔ ∀ r ∈ resp, r.code = -4004 := by
  induction resp with
  | nil => simp [count4004]
  | cons r rest ih =>
    simp only [count4004, List.length_cons, List.mem_cons]
    by_cases h : r.code = -4004
    · have hc : r.code ≠ 0 ∧ r.code = -4004 := ⟨by rw [h]; norm_num, h⟩
      rw [if_pos hc]
      constructor
      · intro he x hx
        rcases hx with hx | hx
        · rw [hx, h]
        · exact (ih.mp (by omega)) x hx
      · intro hall
        have h2 : count4004 rest = rest.length := ih.mpr (fun x hx => hall x (Or.inr hx))
        omega
    · rw [if_neg (fun hc => h hc.2)]
      constructor
      · intro he
        exfalso
        have := count4004_le rest
        omega
      · intro hall
        exact absurd (hall r (Or.inl rfl)) h

/-! ## C2: assumed-state flag set iff all properties fail with -4004 -/

/-- C2: in `MiotSensor.async_update`, starting from an unset flag, the
assumed-state flag ends up set if and only if every entry of the fetched
response has result code `-4004`; in particular a partial failure (some
entries with a different code, for instance `0`) leaves it unset. -/
theorem assumed_state_iff_all_4004 (cfg : SensorConfig) (s : SensorState)
    (hskip : ¬(cfg.update_instant = false ∧ s.skip_update = true))
    (hflag : s.assumed_state = false) (resp : List PropResult) :
    (async_update cfg s (.ok resp)).assumed_state = true ↔
      ∀ r ∈ resp, r.code = -4004 := by
  rw [async_update_ok_assumed cfg s resp hskip]
  by_cases hc : count4004 resp = resp.length
  · rw [if_pos hc]
    exact ⟨fun _ => (count4004_eq_length_iff resp).mp hc, fun _ => rfl⟩
  · rw [if_neg hc, hflag]
    constructor
    · intro h
      cases h
    · intro hall
      exact absurd ((count4004_eq_length_iff resp).mpr hall) hc

/-- C2 (witness): a response whose single entry fails with code `-4004`
sets the flag. -/
theorem assumed_state_iff_all_4004_witness :
    (async_update ⟨fun _ => none, none, ["a"], true⟩ ⟨false, false, [], none, false⟩
        (.ok [⟨"a", -4004, 0⟩])).assumed_state = true := by
  exact (assumed_state_iff_all_4004 ⟨fun _ => none, none, ["a"], true⟩
      ⟨false, false, [], none, false⟩ (by simp) rfl [⟨"a", -4004, 0⟩]).mpr
    (by intro r hr; simp at hr; rw [hr])

/-! ## C6: per-property value_ratio scaling -/

/-- C6: in `MiotSensor.async_update`, a successfully fetched property
(code `0`) with a configured `value_ratio` `f` is stored as
`round(value * f, 3)`, and one without a `value_ratio` is stored as the
raw value unchanged. -/
theorem sensor_scaling (cfg : SensorConfig) (resp : List PropResult) (r : PropResult)
    (hmem : r ∈ resp) (hcode : r.code = 0) (hnd : (resp.map PropResult.did).Nodup) :
    (∀ f, cfg.ratioOf r.did = some f →
        (buildStatedict cfg resp []).lookup r.did = some (some (pyRound3 (r.value * f)))) ∧
    (cfg.ratioOf r.did = none →
        (buildStatedict cfg resp []).lookup r.did = some (some r.value)) := by
  have h := lookup_buildStatedict_mem cfg resp [] r hnd hmem
  constructor
  · intro f hf
    rw [h]
    simp [entryValue, scaledValue, hcode, hf]
  · intro hf
    rw [h]
    simp [entryValue, scaledValue, hcode, hf]

/-- C6 (witness): a `power` property with raw value `1234` and ratio
`1/10` is stored as `round(123.4, 3) = 123.4 = 617/5`. -/
theorem sensor_scaling_witness :
    (buildStatedict
        ⟨fun d => if d = "power" then some (1/10) else none, none, ["power"], true⟩
        [⟨"power", 0, 1234⟩] []).lookup "power" = some (some (617/5)) := by
  have h := (sensor_scaling
      ⟨fun d => if d = "power" then some (1/10) else none, none, ["power"], true⟩
      [⟨"power", 0, 1234⟩] ⟨"power", 0, 1234⟩ (by simp) rfl (by simp)).1
      (1/10) (by simp)
  rw [h]
  norm_num [pyRound3, pyRound]

/-! ## C7: primary state selection -/

/-- C7 (code bug): with no `sensor_property` configured, after a
successful poll that fetched the first mapping key `temp` with value `5`,
the primary state is `None` and not the `temp` attribute. The fallback
`self._state = state.get(self._mapping.keys()[0])` raises `TypeError` in
Python 3 (a `dict_keys` view is not subscriptable), the bare `except:`
catches it and stores `None`, so the documented fallback to the first
mapping key never happens. -/
theorem fallback_state_bug :
    ((async_update ⟨fun _ => none, none, ["temp"], true⟩ ⟨false, false, [], none, false⟩
        (.ok [⟨"temp", 0, 5⟩])).state = none) ∧
    ((async_update ⟨fun _ => none, none, ["temp"], true⟩ ⟨false, false, [], none, false⟩
        (.ok [⟨"temp", 0, 5⟩])).state_attrs.lookup "temp" = some (some 5)) := by
  constructor <;> rfl

/-! ## C10: the assumed-state flag is never reset -/

theorem assumed_state_step (cfg : SensorConfig) (s : SensorState)
    (u : Except Unit (List PropResult)) (h : s.assumed_state = true) :
    (async_update cfg s u).assumed_state = true := by
  unfold async_update
  split_ifs with hskip
  · exact h
  · cases u with
    | error e => rw [selectState_assumed]; exact h
    | ok resp =>
      rw [selectState_assumed]
      show (if count4004 resp = resp.length then true else s.assumed_state) = true
      split_ifs
      · rfl
      · exact h

theorem assumed_state_monotone (cfg : SensorConfig) (s : SensorState)
    (h : s.assumed_state = true) (updates : List (Except Unit (List PropResult))) :
    (updates.foldl (async_update cfg) s).assumed_state = true := by
  induction updates generalizing s with
  | nil => exact h
  | cons u rest ih => exact ih _ (assumed_state_step cfg s u h)

/-- C10: once a poll in which every returned property had code `-4004`
has set the assumed-state flag, no sequence of later `async_update` calls
(successful, failed or skipped) ever resets it: the only assignment in the
code sets it to `True`. -/
theorem assumed_state_persists (cfg : SensorConfig) (s : SensorState)
    (hskip : ¬(cfg.update_instant = false ∧ s.skip_update = true))
    (resp : List PropResult) (hall : ∀ r ∈ resp, r.code = -4004)
    (updates : List (Except Unit (List PropResult))) :
    (updates.foldl (async_update cfg) (async_update cfg s (.ok resp))).assumed_state
      = true := by
  apply assumed_state_monotone
  rw [async_update_ok_assumed cfg s resp hskip,
    if_pos ((count4004_eq_length_iff resp).mpr hall)]

/-- C10 (witness): the flag set by an all-`-4004` poll survives a later
fully successful poll. -/
theorem assumed_state_persists_witness :
    ([Except.ok [(⟨"a", 0, 1⟩ : PropResult)]].foldl
        (async_update ⟨fun _ => none, none, ["a"], true⟩)
        (async_update ⟨fun _ => none, none, ["a"], true⟩ ⟨false, false, [], none, false⟩
          (.ok [⟨"a", -4004, 0⟩]))).assumed_state = true := by
  exact assumed_state_persists ⟨fun _ => none, none, ["a"], true⟩
    ⟨false, false, [], none, false⟩ (by simp) [⟨"a", -4004, 0⟩]
    (by intro r hr; simp at hr; rw [hr]) [Except.ok [⟨"a", 0, 1⟩]]

end MiotSensor

/-! ## C8: tolerance of missing keys in the light update -/

namespace MiotLight

/-- C8 (counterexample): the claim fails as stated for `switch_status`:
a response that lacks a `switch_status` entry makes
`state = statedict['switch_status']` (light.py line 196) raise an uncaught
`KeyError`, so the update does not complete. -/
theorem missing_switch_status_raises :
    async_update ⟨1, 0, ⟨1, 100, 1⟩, [], true⟩
      ⟨true, some true, none, none, none, [], false⟩
      (.ok [⟨"brightness", some 50⟩]) = .error () := by rfl

/-- C8 (amended): `MiotLight.async_update` tolerates a missing
`brightness`, `color_temperature` or `mode` key — the corresponding cached
attribute is left unchanged (or cleared, for the effect) and the update
completes — but a missing `switch_status` key raises out of the update. -/
theorem missing_keys_tolerated (cfg : LightConfig) (s : LightState)
    (resp : List LightProp)
    (hskip : ¬(cfg.update_instant = false ∧ s.skip_update = true)) :
    ((lightStatedict resp []).lookup "switch_status" = none →
        async_update cfg s (.ok resp) = .error ()) ∧
    (∀ st, (lightStatedict resp []).lookup "switch_status" = some st →
      ∃ s2, async_update cfg s (.ok resp) = .ok s2 ∧
        ((lightStatedict resp []).lookup "brightness" = none →
          s2.brightness = s.brightness) ∧
        ((lightStatedict resp []).lookup "color_temperature" = none →
          s2.color_temp = s.color_temp) ∧
        ((lightStatedict resp []).lookup "mode" = none → s2.effect = none)) := by
  unfold async_update
  rw [if_neg hskip]
  constructor
  · intro h
    dsimp only
    rw [h]
  · intro st hst
    dsimp only
    rw [hst]
    refine ⟨_, rfl, fun hb => ?_, fun hc => ?_, fun hm => ?_⟩
    · simp [hb]
    · simp [hc]
    · simp [hm]

/-- C8 (witness): a response carrying only `switch_status` completes and
leaves brightness and color temperature untouched while clearing the
effect. -/
theorem missing_keys_tolerated_witness :
    ∃ s2, async_update ⟨1, 0, ⟨1, 100, 1⟩, [], true⟩
        ⟨true, some true, some 10, none, none, [], false⟩
        (.ok [⟨"switch_status", some 1⟩]) = .ok s2 ∧
      s2.brightness = some 10 ∧ s2.color_temp = none ∧ s2.effect = none := by
  obtain ⟨s2, heq, hb, hc, he⟩ :=
    (missing_keys_tolerated ⟨1, 0, ⟨1, 100, 1⟩, [], true⟩
      ⟨true, some true, some 10, none, none, [], false⟩
      [⟨"switch_status", some 1⟩] (by simp)).2 1 (by rfl)
  exact ⟨s2, heq, hb rfl, hc rfl, he rfl⟩

/-- On a successful light poll with a fetched `switch_status`, the
attribute dictionary is only touched at the three derived keys
(light.py lines 215-227): `state_value` always takes the fetched switch
value, `color_temperature` the fetched raw value when present, the
fetched `mode` code is republished under the key `effect`, and every
other key — including the two optional ones when their property was not
fetched — keeps its previous value. -/
theorem light_attrs_frame (cfg : LightConfig) (s : LightState) (resp : List LightProp)
    (hskip : ¬(cfg.update_instant = false ∧ s.skip_update = true))
    (st : ℤ) (hst : (lightStatedict resp []).lookup "switch_status" = some st) :
    ∃ s2, async_update cfg s (.ok resp) = .ok s2 ∧
      (∀ k, k ≠ "state_value" → k ≠ "color_temperature" → k ≠ "effect" →
        s2.state_attrs.lookup k = s.state_attrs.lookup k) ∧
      s2.state_attrs.lookup "state_value" = some st ∧
      (∀ v, (lightStatedict resp []).lookup "color_temperature" = some v →
        s2.state_attrs.lookup "color_temperature" = some v) ∧
      ((lightStatedict resp []).lookup "color_temperature" = none →
        s2.state_attrs.lookup "color_temperature" = s.state_attrs.lookup "color_temperature") ∧
      (∀ v, (lightStatedict resp []).lookup "mode" = some v →
        s2.state_attrs.lookup "effect" = some v) ∧
      ((lightStatedict resp []).lookup "mode" = none →
        s2.state_attrs.lookup "effect" = s.state_attrs.lookup "effect") := by
  unfold async_update
  rw [if_neg hskip]
  dsimp only
  rw [hst]
  refine ⟨_, rfl, ?_, ?_, ?_, ?_, ?_, ?_⟩
  · intro k h1 h2 h3
    cases hct : (lightStatedict resp []).lookup "color_temperature" <;>
      cases hm : (lightStatedict resp []).lookup "mode" <;>
        simp only [hct, hm] <;>
          simp [lookup_dictInsert_ne _ _ _ _ h1, lookup_dictInsert_ne _ _ _ _ h2,
            lookup_dictInsert_ne _ _ _ _ h3]
  · cases hct : (lightStatedict resp []).lookup "color_temperature" <;>
      cases hm : (lightStatedict resp []).lookup "mode" <;>
        simp only [hct, hm] <;>
          simp [lookup_dictInsert_ne _ _ _ _ (by decide : "state_value" ≠ "color_temperature"),
            lookup_dictInsert_ne _ _ _ _ (by decide : "state_value" ≠ "effect"),
            lookup_dictInsert_self]
  · intro v hv
    cases hm : (lightStatedict resp []).lookup "mode" <;>
      simp only [hv, hm] <;>
        simp [lookup_dictInsert_ne _ _ _ _ (by decide : "color_temperature" ≠ "effect"),
          lookup_dictInsert_self]
  · intro hv
    cases hm : (lightStatedict resp []).lookup "mode" <;>
      simp only [hv, hm] <;>
        simp [lookup_dictInsert_ne _ _ _ _ (by decide : "color_temperature" ≠ "effect"),
          lookup_dictInsert_ne _ _ _ _ (by decide : "color_temperature" ≠ "state_value")]
  · intro v hv
    cases hct : (lightStatedict resp []).lookup "color_temperature" <;>
      simp only [hct, hv] <;> simp [lookup_dictInsert_self]
  · intro hv
    cases hct : (lightStatedict resp []).lookup "color_temperature" <;>
      simp only [hct, hv] <;>
        simp [lookup_dictInsert_ne _ _ _ _ (by decide : "effect" ≠ "color_temperature"),
          lookup_dictInsert_ne _ _ _ _ (by decide : "effect" ≠ "state_value")]

end MiotLight

/-! ## C9: attribute dictionary update discipline -/

/-- C9 (counterexample): the claim fails as stated for both entities; the
cached attribute dictionary is merged into, not overwritten wholesale.
After a successful sensor poll returning only the property `b`, the stale
key `old` from an earlier poll is still present with its old value; after
a successful light poll returning only `switch_status`, the stale key
`old` likewise survives. -/
theorem attrs_merge_counterexample :
    ((MiotSensor.async_update ⟨fun _ => none, none, [], true⟩
        ⟨true, false, [("old", some 1)], none, false⟩
        (.ok [⟨"b", 0, 2⟩])).state_attrs.lookup "old" = some (some 1)) ∧
    "old" ∉ ([⟨"b", 0, 2⟩] : List MiotSensor.PropResult).map MiotSensor.PropResult.did ∧
    ((MiotLight.async_update ⟨1, 0, ⟨1, 100, 1⟩, [], true⟩
        ⟨true, some true, none, none, none, [("old", 5)], false⟩
        (.ok [⟨"switch_status", some 1⟩])).toOption.map
      (fun s2 => List.lookup "old" s2.state_attrs) = some (some 5)) ∧
    "old" ∉ ([⟨"switch_status", some 1⟩] :
        List MiotLight.LightProp).map MiotLight.LightProp.did := by
  refine ⟨rfl, by simp, rfl, by simp⟩

/-- C9 (amended): on every successful poll the freshly fetched property
values are merged into the cached attribute dictionary rather than
replacing it. For the sensor, every fetched key takes the value computed
from the fresh response alone and keys not in the response keep their
previous values. For the light, only the derived keys are written:
`state_value` always takes the fetched switch value, `color_temperature`
the fetched raw value when present, the fetched `mode` code is
republished under `effect`, and every other key — including the two
optional ones when not fetched — keeps its previous value. On a failed
poll both entities leave the dictionary stale with only the availability
flag cleared. -/
theorem attrs_update_frame :
    (∀ (cfg : MiotSensor.SensorConfig) (s : MiotSensor.SensorState),
      ¬(cfg.update_instant = false ∧ s.skip_update = true) →
      (∀ resp k, k ∉ resp.map MiotSensor.PropResult.did →
          (MiotSensor.async_update cfg s (.ok resp)).state_attrs.lookup k =
            s.state_attrs.lookup k) ∧
      (∀ resp k, k ∈ resp.map MiotSensor.PropResult.did →
          (MiotSensor.async_update cfg s (.ok resp)).state_attrs.lookup k =
            (MiotSensor.buildStatedict cfg resp []).lookup k) ∧
      (MiotSensor.async_update cfg s (.error ())).state_attrs = s.state_attrs ∧
      (MiotSensor.async_update cfg s (.error ())).available = false) ∧
    (∀ (cfg : MiotLight.LightConfig) (s : MiotLight.LightState)
        (resp : List MiotLight.LightProp),
      ¬(cfg.update_instant = false ∧ s.skip_update = true) →
      (∀ st, (MiotLight.lightStatedict resp []).lookup "switch_status" = some st →
        ∃ s2, MiotLight.async_update cfg s (.ok resp) = .ok s2 ∧
          (∀ k, k ≠ "state_value" → k ≠ "color_temperature" → k ≠ "effect" →
            s2.state_attrs.lookup k = s.state_attrs.lookup k) ∧
          s2.state_attrs.lookup "state_value" = some st ∧
          (∀ v, (MiotLight.lightStatedict resp []).lookup "color_temperature" = some v →
            s2.state_attrs.lookup "color_temperature" = some v) ∧
          ((MiotLight.lightStatedict resp []).lookup "color_temperature" = none →
            s2.state_attrs.lookup "color_temperature" =
              s.state_attrs.lookup "color_temperature") ∧
          (∀ v, (MiotLight.lightStatedict resp []).lookup "mode" = some v →
            s2.state_attrs.lookup "effect" = some v) ∧
          ((MiotLight.lightStatedict resp []).lookup "mode" = none →
            s2.state_attrs.lookup "effect" = s.state_attrs.lookup "effect")) ∧
      MiotLight.async_update cfg s (.error ()) = .ok { s with available := false }) := by
  refine ⟨fun cfg s hskip => ⟨fun resp k hk => ?_, fun resp k hk => ?_, ?_, ?_⟩,
          fun cfg s resp hskip => ⟨fun st hst => ?_, ?_⟩⟩
  · rw [MiotSensor.async_update_ok_attrs cfg s resp hskip]
    apply lookup_dictUpdate_not_mem
    rw [MiotSensor.mem_keys_buildStatedict]
    simp [hk]
  · rw [MiotSensor.async_update_ok_attrs cfg s resp hskip]
    apply lookup_dictUpdate_mem_nodup
    · exact MiotSensor.nodup_keys_buildStatedict cfg resp [] (by simp)
    · rw [MiotSensor.mem_keys_buildStatedict]
      simp [hk]
  · rw [MiotSensor.async_update_error_eq cfg s hskip, MiotSensor.selectState_attrs]
  · rw [MiotSensor.async_update_error_eq cfg s hskip, MiotSensor.selectState_available]
  · exact MiotLight.light_attrs_frame cfg s resp hskip st hst
  · unfold MiotLight.async_update
    rw [if_neg hskip]

/-- C9 (witness): the amended statement at concrete states and responses:
the fetched sensor key `b` takes the fresh value; for the light, the
stale key `old` survives and the fetched mode code 2 appears under the
key `effect`. -/
theorem attrs_update_frame_witness :
    ((MiotSensor.async_update ⟨fun _ => none, none, [], true⟩
        ⟨true, false, [("old", some 1)], none, false⟩
        (.ok [⟨"b", 0, 2⟩])).state_attrs.lookup "b" =
      (MiotSensor.buildStatedict ⟨fun _ => none, none, [], true⟩
        [⟨"b", 0, 2⟩] []).lookup "b") ∧
    ((MiotLight.async_update ⟨1, 0, ⟨1, 100, 1⟩, [(2, "night")], true⟩
        ⟨true, some true, none, none, none, [("old", 5)], false⟩
        (.ok [⟨"switch_status", some 1⟩, ⟨"mode", some 2⟩])).toOption.map
      (fun s2 => (List.lookup "old" s2.state_attrs, List.lookup "effect" s2.state_attrs)) =
      some (some 5, some 2)) := by
  constructor
  · exact (attrs_update_frame.1 ⟨fun _ => none, none, [], true⟩
        ⟨true, false, [("old", some 1)], none, false⟩ (by simp)).2.1
      [⟨"b", 0, 2⟩] "b" (by simp)
  · obtain ⟨s2, heq, hk, hsv, hctpos, hctneg, hmpos, hmneg⟩ :=
      (attrs_update_frame.2 ⟨1, 0, ⟨1, 100, 1⟩, [(2, "night")], true⟩
        ⟨true, some true, none, none, none, [("old", 5)], false⟩
        [⟨"switch_status", some 1⟩, ⟨"mode", some 2⟩] (by simp)).1 1 (by rfl)
    rw [heq]
    have h1 := hk "old" (by decide) (by decide) (by decide)
    have h2 := hmpos 2 (by rfl)
    simp only [Except.toOption, Option.map, h1, h2]
    rfl

/-! ## C3: device-communication errors at setup and during polls -/

/-- C3: a `DeviceException` during platform setup prevents entity creation
and raises `PlatformNotReady`; the same exception during a poll is caught,
clears only the availability flag, and leaves every previously cached
attribute value unchanged (for the light, the whole state record except
`available`; for the sensor, the attribute dictionary and the
assumed-state flag). -/
theorem device_error_handling :
    (∀ (α β : Type) (mk : β → α),
      async_setup_platform (.error ()) mk = SetupOutcome.notReady) ∧
    (∀ (cfg : MiotLight.LightConfig) (s : MiotLight.LightState),
      ¬(cfg.update_instant = false ∧ s.skip_update = true) →
      MiotLight.async_update cfg s (.error ()) = .ok { s with available := false }) ∧
    (∀ (cfg : MiotSensor.SensorConfig) (s : MiotSensor.SensorState),
      ¬(cfg.update_instant = false ∧ s.skip_update = true) →
      (MiotSensor.async_update cfg s (.error ())).available = false ∧
      (MiotSensor.async_update cfg s (.error ())).state_attrs = s.state_attrs ∧
      (MiotSensor.async_update cfg s (.error ())).assumed_state = s.assumed_state) := by
  refine ⟨fun α β mk => rfl, fun cfg s hskip => ?_, fun cfg s hskip => ?_⟩
  · unfold MiotLight.async_update
    rw [if_neg hskip]
  · refine ⟨?_, ?_, ?_⟩ <;> rw [MiotSensor.async_update_error_eq cfg s hskip]
    · rw [MiotSensor.selectState_available]
    · rw [MiotSensor.selectState_attrs]
    · rw [MiotSensor.selectState_assumed]

/-- C3 (witness): a failed poll of a concrete light entity clears only the
availability flag. -/
theorem device_error_handling_witness :
    MiotLight.async_update ⟨1, 0, ⟨1, 100, 1⟩, [], true⟩
      ⟨true, some true, some 10, some 250, none, [("state_value", 1)], false⟩
      (.error ()) =
    .ok ⟨false, some true, some 10, some 250, none, [("state_value", 1)], false⟩ := by
  exact device_error_handling.2.1 ⟨1, 0, ⟨1, 100, 1⟩, [], true⟩
    ⟨true, some true, some 10, some 250, none, [("state_value", 1)], false⟩ (by simp)

end XiaomiMiotRaw
